import Mathlib

/-!
Verification development for the Patchwork 2D vector-shape library
(`Shape.h`).  The shape classes (`Circle`, `Polygon`, `Line`, `Ellipse`),
the composite container (`Image`) and its text codec are embedded
shallowly below.

Modelling conventions:
* C++ `float` values are modelled as exact rationals (`ℚ`); the claims
  about floating-point data are all stated up to the epsilon tolerance
  the specification grants, which exact rationals satisfy.
* C++ `int` values are modelled as `ℤ`; a `float`-to-`int` conversion is
  truncation toward zero (`ratTrunc`).
* The `std::mutex` in `Image` is dropped: every public operation holds
  the single lock for its whole duration, so the sequential semantics
  embedded here is exactly the per-call behaviour.
* `Maths.h` is not part of the sources; `Vec2`, `Color` and `dot` are
  modelled from the specification (see their doc comments).  `fast_sin`
  and `fast_cos` do not appear: rotation is parametrised directly by the
  sine and cosine values the source computes once at the top of each
  rotate body.
-/

set_option maxRecDepth 2000

namespace Patchwork

/-- Modelled from the spec: `Maths.h` is absent from the sources.  `Vec2` is
`(x : float64, y : float64)`, a value type with addition, subtraction,
scalar multiplication and dot product; coordinates are modelled as `ℚ`. -/
structure Vec2 where
  x : ℚ
  y : ℚ
  deriving DecidableEq, Repr

instance : Add Vec2 := ⟨fun a b => ⟨a.x + b.x, a.y + b.y⟩⟩

instance : Sub Vec2 := ⟨fun a b => ⟨a.x - b.x, a.y - b.y⟩⟩

instance : HMul ℚ Vec2 Vec2 := ⟨fun r v => ⟨r * v.x, r * v.y⟩⟩

/-- Modelled from the spec: dot product of two `Vec2`. -/
def dot (a b : Vec2) : ℚ := a.x * b.x + a.y * b.y

theorem Vec2.ext_iff' (a b : Vec2) : a = b ↔ a.x = b.x ∧ a.y = b.y := by
  cases a; cases b; simp

/-- Modelled from the spec: `Color` is an RGB value `(r, g, b)` stored as
C++ `int`, equality-comparable. -/
structure Color where
  r : ℤ
  g : ℤ
  b : ℤ
  deriving DecidableEq, Repr

/-- Truncation toward zero, the C++ `float`-to-`int` conversion. -/
def ratTrunc (q : ℚ) : ℤ := if 0 ≤ q then ⌊q⌋ else ⌈q⌉

/-- Mirrors `BoundingBox` as in the source: four `int` fields, default-constructed
to the inverted sentinel `x_max = y_max = -10000`, `x_min = y_min = 10000`.
Field order follows the C++ declaration order. -/
structure BoundingBox where
  x_max : ℤ
  x_min : ℤ
  y_max : ℤ
  y_min : ℤ
  deriving DecidableEq, Repr

/-- The default `BoundingBox` constructor: the inverted sentinel. -/
def BoundingBox.init : BoundingBox :=
  { x_max := -10000, x_min := 10000, y_max := -10000, y_min := 10000 }

/-- Mirrors `Shape::Derivedtype`. -/
inductive Derivedtype where
  | CIRCLE | POLYGON | LINE | ELLIPSE | IMAGE | END_ENUM
  deriving DecidableEq, Repr

/-- The static container `Shape::shapes` of shape keywords. -/
def Shape.shapes : List String := ["circle", "polygon", "line", "ellipse"]

/-- Mirrors `Shape::ShapeStringToEnum`: linear search of `shapes`, returning the
`Derivedtype` of the matching index, `END_ENUM` when absent. -/
def ShapeStringToEnum (s : String) : Derivedtype :=
  if s = "circle" then .CIRCLE
  else if s = "polygon" then .POLYGON
  else if s = "line" then .LINE
  else if s = "ellipse" then .ELLIPSE
  else .END_ENUM

/-- The `Circle` class: `m_origin`, `m_radius`, plus the inherited
`m_color`.  (`m_type` is determined by the variant and is recovered by
`Shape.type` below.) -/
structure Circle where
  origin : Vec2
  radius : ℚ
  color : Color
  deriving DecidableEq, Repr

/-- The `Polygon` class: the ordered point list `m_points` plus `m_color`. -/
structure Polygon where
  points : List Vec2
  color : Color
  deriving DecidableEq, Repr

/-- The `Line` class: `m_point`, `m_direction`, plus `m_color`. -/
structure Line where
  point : Vec2
  direction : Vec2
  color : Color
  deriving DecidableEq, Repr

/-- The `Ellipse` class: `m_origin`, the two-axis `m_radius`, plus
`m_color`. -/
structure Ellipse where
  origin : Vec2
  radius : Vec2
  color : Color
  deriving DecidableEq, Repr

/-- The closed polymorphic layer over the four leaf variants (the shapes
an `Image` stores). -/
inductive Shape where
  | circle (c : Circle)
  | polygon (p : Polygon)
  | line (l : Line)
  | ellipse (e : Ellipse)
  deriving DecidableEq, Repr

/-- Mirrors `Shape::type()`: the discriminant tag of a stored shape. -/
def Shape.type : Shape → Derivedtype
  | .circle _ => .CIRCLE
  | .polygon _ => .POLYGON
  | .line _ => .LINE
  | .ellipse _ => .ELLIPSE

/-- Mirrors `Shape::color()`: the color of a stored shape. -/
def Shape.color : Shape → Color
  | .circle c => c.color
  | .polygon p => p.color
  | .line l => l.color
  | .ellipse e => e.color

/-! Circle transforms (`Shape.h`, class `Circle`) -/

/-- Mirrors `Circle::translate(v)`: `m_origin = m_origin + v`. -/
def Circle.translate (c : Circle) (v : Vec2) : Circle :=
  { c with origin := c.origin + v }

/-- Mirrors `Circle::homothety(ratio)`: `m_radius *= ratio`. -/
def Circle.homothety (c : Circle) (ratio : ℚ) : Circle :=
  { c with radius := c.radius * ratio }

/-- Mirrors `Circle::homothety(p, ratio)`: `u = m_origin - p; m_origin = p + ratio*u;
m_radius *= ratio`. -/
def Circle.homothety2 (c : Circle) (p : Vec2) (ratio : ℚ) : Circle :=
  { c with origin := p + ratio * (c.origin - p), radius := c.radius * ratio }

/-- Mirrors `Circle::rotate(p, angle)`, with `s = fast_sin(angle)` and
`c = fast_cos(angle)` passed in as the values the source computes. -/
def Circle.rotate2 (ci : Circle) (p : Vec2) (s c : ℚ) : Circle :=
  { ci with origin :=
      ⟨((ci.origin.x - p.x) * c - (ci.origin.y - p.y) * s) + p.x,
       ((ci.origin.x - p.x) * s + (ci.origin.y - p.y) * c) + p.y⟩ }

/-- Mirrors `Circle::rotate(angle)`: empty body (rotation about its own center). -/
def Circle.rotate (c : Circle) (_s _co : ℚ) : Circle := c

/-- Mirrors `Circle::centralSym(p)`: `t = 2 * (p - m_origin); translate(t)`. -/
def Circle.centralSym (c : Circle) (p : Vec2) : Circle :=
  c.translate ((2 : ℚ) * (p - c.origin))

/-- Mirrors `Circle::axialSym(p, d)`: orthogonal projection of the center onto the
line, then translate by twice the gap. -/
def Circle.axialSym (ci : Circle) (p d : Vec2) : Circle :=
  let p1 := p + d
  let w := ci.origin - p
  let vl := p1 - p
  let b := dot w vl / dot vl vl
  let intersection := p + b * vl
  ci.translate ((2 : ℚ) * (intersection - ci.origin))

/-- Mirrors `Circle::bounding_box()`. -/
def Circle.bounding_box (c : Circle) : BoundingBox :=
  { x_min := ratTrunc (c.origin.x - c.radius)
    x_max := ratTrunc (c.origin.x + c.radius)
    y_min := ratTrunc (c.origin.y - c.radius)
    y_max := ratTrunc (c.origin.y + c.radius) }

/-! Polygon transforms (`Shape.h`, class `Polygon`) -/

/-- Mirrors `Polygon::bounding_box()`: sentinel box folded with the four
independent `if` updates, `float` coordinates truncated on store. -/
def Polygon.bounding_box (pg : Polygon) : BoundingBox :=
  pg.points.foldl (fun bb point =>
    let bb := if point.x < (bb.x_min : ℚ) then { bb with x_min := ratTrunc point.x } else bb
    let bb := if point.x > (bb.x_max : ℚ) then { bb with x_max := ratTrunc point.x } else bb
    let bb := if point.y < (bb.y_min : ℚ) then { bb with y_min := ratTrunc point.y } else bb
    let bb := if point.y > (bb.y_max : ℚ) then { bb with y_max := ratTrunc point.y } else bb
    bb) BoundingBox.init

/-- Mirrors `Polygon::homothety(ratio)`: scale about the bounding-box center
`(x_max - (x_max - x_min)/2.f, y_max - (y_max - y_min)/2.f)`. -/
def Polygon.homothety (pg : Polygon) (ratio : ℚ) : Polygon :=
  let bb := pg.bounding_box
  let center : Vec2 :=
    ⟨(bb.x_max : ℚ) - ((bb.x_max - bb.x_min : ℤ) : ℚ) / 2,
     (bb.y_max : ℚ) - ((bb.y_max - bb.y_min : ℤ) : ℚ) / 2⟩
  { pg with points := pg.points.map (fun pt => center + ratio * (pt - center)) }

/-- Mirrors `Polygon::homothety(o, ratio)`: each point `M ↦ o + ratio * (M - o)`. -/
def Polygon.homothety2 (pg : Polygon) (o : Vec2) (ratio : ℚ) : Polygon :=
  { pg with points := pg.points.map (fun pt => o + ratio * (pt - o)) }

/-- Mirrors `Polygon::rotate(p, angle)` with the sine/cosine values passed in. -/
def Polygon.rotate2 (pg : Polygon) (p : Vec2) (s c : ℚ) : Polygon :=
  { pg with points := pg.points.map (fun pt =>
      ⟨((pt.x - p.x) * c - (pt.y - p.y) * s) + p.x,
       ((pt.x - p.x) * s + (pt.y - p.y) * c) + p.y⟩) }

/-- Mirrors `Polygon::rotate(angle)` with the sine/cosine values passed in:
rotation of every point about the global origin. -/
def Polygon.rotate (pg : Polygon) (s c : ℚ) : Polygon :=
  { pg with points := pg.points.map (fun pt =>
      ⟨pt.x * c - pt.y * s, pt.x * s + pt.y * c⟩) }

/-- Mirrors `Polygon::translate(v)`. -/
def Polygon.translate (pg : Polygon) (v : Vec2) : Polygon :=
  { pg with points := pg.points.map (fun pt => pt + v) }

/-- Mirrors `Polygon::centralSym(p)`: each point gets `t = 2 * (p - M)` added. -/
def Polygon.centralSym (pg : Polygon) (p : Vec2) : Polygon :=
  { pg with points := pg.points.map (fun pt => pt + (2 : ℚ) * (p - pt)) }

/-- Mirrors `Polygon::axialSym(p, v)`. -/
def Polygon.axialSym (pg : Polygon) (p v : Vec2) : Polygon :=
  { pg with points := pg.points.map (fun pt =>
      let p1 := p + v
      let w := pt - p
      let vl := p1 - p
      let b := dot w vl / dot vl vl
      let intersection := p + b * vl
      pt + (2 : ℚ) * (intersection - pt)) }

/-! Line transforms (`Shape.h`, class `Line`) -/

/-- Mirrors `Line::translate(v)`: only `m_point` moves. -/
def Line.translate (l : Line) (v : Vec2) : Line :=
  { l with point := l.point + v }

/-- Mirrors `Line::homothety(ratio)`: empty body. -/
def Line.homothety (l : Line) (_ratio : ℚ) : Line := l

/-- Mirrors `Line::homothety(p, ratio)`: empty body. -/
def Line.homothety2 (l : Line) (_p : Vec2) (_ratio : ℚ) : Line := l

/-- Mirrors `Line::rotate(angle)` with the sine/cosine values passed in: rotate
the endpoint `m_point + m_direction` about `m_point` and recompute
`m_direction`. -/
def Line.rotate (l : Line) (s c : ℚ) : Line :=
  let p : Vec2 := ⟨l.point.x + l.direction.x - l.point.x,
                   l.point.y + l.direction.y - l.point.y⟩
  let x := (p.x * c - p.y * s) + l.point.x
  let y := (p.x * s + p.y * c) + l.point.y
  { l with direction := Vec2.mk x y - l.point }

/-- Mirrors `Line::rotate(p, angle)` with the sine/cosine values passed in:
rotate the endpoint and `m_point` about `p`, then recompute
`m_direction` from the updated `m_point`. -/
def Line.rotate2 (l : Line) (p : Vec2) (s c : ℚ) : Line :=
  let pt := l.point + l.direction
  let x := ((pt.x - p.x) * c - (pt.y - p.y) * s) + p.x
  let y := ((pt.x - p.x) * s + (pt.y - p.y) * c) + p.y
  let c_x := ((l.point.x - p.x) * c - (l.point.y - p.y) * s) + p.x
  let c_y := ((l.point.x - p.x) * s + (l.point.y - p.y) * c) + p.y
  { l with point := ⟨c_x, c_y⟩, direction := Vec2.mk x y - ⟨c_x, c_y⟩ }

/-- Mirrors `Line::centralSym(c)`: `t = 2 * (c - m_point); translate(t)`. -/
def Line.centralSym (l : Line) (c : Vec2) : Line :=
  l.translate ((2 : ℚ) * (c - l.point))

/-- Mirrors `Line::axialSym(p, d)`: empty body. -/
def Line.axialSym (l : Line) (_p _d : Vec2) : Line := l

/-- Mirrors `Line::bounding_box()`: starts from the sentinel and only fills each
axis when the second endpoint is strictly smaller on that axis (the
source has no `else` branches). -/
def Line.bounding_box (l : Line) : BoundingBox :=
  let bb := BoundingBox.init
  let p2 := l.point + l.direction
  let bb := if p2.x < l.point.x then
      { bb with x_min := ratTrunc p2.x, x_max := ratTrunc l.point.x } else bb
  let bb := if p2.y < l.point.y then
      { bb with y_min := ratTrunc p2.y, y_max := ratTrunc l.point.y } else bb
  bb

/-! Ellipse transforms (`Shape.h`, class `Ellipse`) -/

/-- Mirrors `Ellipse::translate(v)`. -/
def Ellipse.translate (e : Ellipse) (v : Vec2) : Ellipse :=
  { e with origin := e.origin + v }

/-- Mirrors `Ellipse::homothety(ratio)`: `m_radius = ratio * m_radius`. -/
def Ellipse.homothety (e : Ellipse) (ratio : ℚ) : Ellipse :=
  { e with radius := ratio * e.radius }

/-- Mirrors `Ellipse::homothety(s, ratio)`. -/
def Ellipse.homothety2 (e : Ellipse) (s : Vec2) (ratio : ℚ) : Ellipse :=
  { e with origin := s + ratio * (e.origin - s), radius := ratio * e.radius }

/-- Mirrors `Ellipse::rotate(c, angle)`: empty body. -/
def Ellipse.rotate2 (e : Ellipse) (_p : Vec2) (_s _c : ℚ) : Ellipse := e

/-- Mirrors `Ellipse::rotate(angle)`: empty body. -/
def Ellipse.rotate (e : Ellipse) (_s _c : ℚ) : Ellipse := e

/-- Mirrors `Ellipse::centralSym(p)`. -/
def Ellipse.centralSym (e : Ellipse) (p : Vec2) : Ellipse :=
  e.translate ((2 : ℚ) * (p - e.origin))

/-- Mirrors `Ellipse::axialSym(p, v)`. -/
def Ellipse.axialSym (e : Ellipse) (p v : Vec2) : Ellipse :=
  let p1 := p + v
  let w := e.origin - p
  let vl := p1 - p
  let b := dot w vl / dot vl vl
  let intersection := p + b * vl
  e.translate ((2 : ℚ) * (intersection - e.origin))

/-- Mirrors `Ellipse::bounding_box()`. -/
def Ellipse.bounding_box (e : Ellipse) : BoundingBox :=
  { x_min := ratTrunc (e.origin.x - e.radius.x)
    x_max := ratTrunc (e.origin.x + e.radius.x)
    y_min := ratTrunc (e.origin.y - e.radius.y)
    y_max := ratTrunc (e.origin.y + e.radius.y) }

/-! Virtual dispatch over the stored variants -/

/-- Virtual `translate` on a stored shape. -/
def Shape.translate : Shape → Vec2 → Shape
  | .circle c, v => .circle (c.translate v)
  | .polygon p, v => .polygon (p.translate v)
  | .line l, v => .line (l.translate v)
  | .ellipse e, v => .ellipse (e.translate v)

/-- Virtual one-argument `homothety` on a stored shape. -/
def Shape.homothety : Shape → ℚ → Shape
  | .circle c, r => .circle (c.homothety r)
  | .polygon p, r => .polygon (p.homothety r)
  | .line l, r => .line (l.homothety r)
  | .ellipse e, r => .ellipse (e.homothety r)

/-- Virtual two-argument `homothety` on a stored shape. -/
def Shape.homothety2 : Shape → Vec2 → ℚ → Shape
  | .circle c, p, r => .circle (c.homothety2 p r)
  | .polygon pg, p, r => .polygon (pg.homothety2 p r)
  | .line l, p, r => .line (l.homothety2 p r)
  | .ellipse e, p, r => .ellipse (e.homothety2 p r)

/-- Virtual own-center `rotate` on a stored shape (sine/cosine passed in). -/
def Shape.rotate : Shape → ℚ → ℚ → Shape
  | .circle ci, s, c => .circle (ci.rotate s c)
  | .polygon p, s, c => .polygon (p.rotate s c)
  | .line l, s, c => .line (l.rotate s c)
  | .ellipse e, s, c => .ellipse (e.rotate s c)

/-- Virtual about-a-point `rotate` on a stored shape (sine/cosine passed
in). -/
def Shape.rotate2 : Shape → Vec2 → ℚ → ℚ → Shape
  | .circle ci, p, s, c => .circle (ci.rotate2 p s c)
  | .polygon pg, p, s, c => .polygon (pg.rotate2 p s c)
  | .line l, p, s, c => .line (l.rotate2 p s c)
  | .ellipse e, p, s, c => .ellipse (e.rotate2 p s c)

/-- Virtual `centralSym` on a stored shape. -/
def Shape.centralSym : Shape → Vec2 → Shape
  | .circle c, p => .circle (c.centralSym p)
  | .polygon pg, p => .polygon (pg.centralSym p)
  | .line l, p => .line (l.centralSym p)
  | .ellipse e, p => .ellipse (e.centralSym p)

/-- Virtual `axialSym` on a stored shape. -/
def Shape.axialSym : Shape → Vec2 → Vec2 → Shape
  | .circle c, p, d => .circle (c.axialSym p d)
  | .polygon pg, p, d => .polygon (pg.axialSym p d)
  | .line l, p, d => .line (l.axialSym p d)
  | .ellipse e, p, d => .ellipse (e.axialSym p d)

/-- Virtual `bounding_box` on a stored shape. -/
def Shape.bounding_box : Shape → BoundingBox
  | .circle c => c.bounding_box
  | .polygon p => p.bounding_box
  | .line l => l.bounding_box
  | .ellipse e => e.bounding_box

/-! Equality operators (`operator==` overloads) -/

/-- Mirrors `operator==(Circle, Circle)`: origin, radius and color must all
match. -/
def Circle.beq (a b : Circle) : Bool :=
  decide (a.origin = b.origin) && decide (a.radius = b.radius) &&
    decide (a.color = b.color)

/-- Mirrors `operator==(Polygon, Polygon)`: only the point lists are compared. -/
def Polygon.beq (a b : Polygon) : Bool :=
  decide (a.points = b.points)

/-- Mirrors `operator==(Line, Line)`: only point and direction are compared. -/
def Line.beq (a b : Line) : Bool :=
  decide (a.point = b.point) && decide (a.direction = b.direction)

/-- Mirrors `operator==(Ellipse, Ellipse)`: only origin and radius are
compared. -/
def Ellipse.beq (a b : Ellipse) : Bool :=
  decide (a.origin = b.origin) && decide (a.radius = b.radius)

/-! The composite container `Image`

The `std::mutex` is elided (see the header comment); `components_`,
`annotation` and `origin_` are the data members. -/

/-- The `Image` class state: `components_`, `annotation`, `origin_`. -/
structure Image where
  components : List Shape
  annotation : String
  origin : Vec2
  deriving DecidableEq, Repr

/-- Mirrors `Image::Image()`: empty component list, empty annotation, origin
`(0, 0)` by default. -/
def Image.fresh : Image := { components := [], annotation := "", origin := ⟨0, 0⟩ }

/-- Mirrors `Image::add_component(s)`: translate the incoming shape by `origin_`,
then `push_back`. -/
def Image.add_component (img : Image) (s : Shape) : Image :=
  { img with components := img.components ++ [s.translate img.origin] }

/-- Mirrors `Image::bounding_box()`: fold of the four `if` merges over the
components, starting from the sentinel box. -/
def Image.bounding_box (img : Image) : BoundingBox :=
  img.components.foldl (fun bb_ component =>
    let bb := component.bounding_box
    let bb_ := if bb_.x_max < bb.x_max then { bb_ with x_max := bb.x_max } else bb_
    let bb_ := if bb_.x_min > bb.x_min then { bb_ with x_min := bb.x_min } else bb_
    let bb_ := if bb_.y_max < bb.y_max then { bb_ with y_max := bb.y_max } else bb_
    let bb_ := if bb_.y_min > bb.y_min then { bb_ with y_min := bb.y_min } else bb_
    bb_) BoundingBox.init

/-- Mirrors `Image::area()`: `w = x_max - x_min`, `h = y_max - y_min` (both
`int`), returned as `(float)w*h`. -/
def Image.area (img : Image) : ℚ :=
  let bb := img.bounding_box
  (((bb.x_max - bb.x_min) * (bb.y_max - bb.y_min) : ℤ) : ℚ)

/-- Mirrors `Image::perimeter()`: `2.f*(w+h)`. -/
def Image.perimeter (img : Image) : ℚ :=
  let bb := img.bounding_box
  2 * (((bb.x_max - bb.x_min) + (bb.y_max - bb.y_min) : ℤ) : ℚ)

/-- Mirrors `Image::annotate(msg)`. -/
def Image.annotate (img : Image) (msg : String) : Image :=
  { img with annotation := msg }

/-! Textual serialization

`to_string(float)` prints with `std::fixed << std::setprecision(2)`,
i.e. the value rounded to two decimals; `to_string(int)` prints the
plain integer.  Digit strings are produced by a structurally recursive
extractor so that everything kernel-evaluates.  (The model prints a
rounded-to-zero negative value as `0.00` where C++ would print `-0.00`;
both parse back to the same value.) -/

/-- Digit character for a digit value. -/
def digCh (d : ℕ) : Char := Char.ofNat (48 + d)

/-- Little-endian base-10 digit values of `n`, with fuel (the fuel `n`
itself always suffices). -/
def natDigitsAux : ℕ → ℕ → List ℕ
  | 0, _ => []
  | _ + 1, 0 => []
  | fuel + 1, n + 1 => ((n + 1) % 10) :: natDigitsAux fuel ((n + 1) / 10)

/-- Decimal digit string of a natural number (`"0"` for zero). -/
def natToString (n : ℕ) : String :=
  if n = 0 then ("0") else String.mk (((natDigitsAux n n).map digCh).reverse)

/-- Mirrors `Patchwork::to_string(int)`. -/
def to_string_int (i : ℤ) : String :=
  (if i < 0 then ("-") else ("")) ++ natToString i.natAbs

/-- The integer scaled value realising fixed two-decimal rounding. -/
def round2 (q : ℚ) : ℤ := round (q * 100)

/-- Mirrors `Patchwork::to_string(float)`: fixed-point with exactly two decimal
digits. -/
def to_string_float (q : ℚ) : String :=
  let n := round2 q
  let a := n.natAbs
  (if n < 0 then ("-") else ("")) ++ natToString (a / 100) ++ "." ++
    String.mk [digCh (a % 100 / 10), digCh (a % 100 % 10)]

/-- Mirrors `Circle::serialize(serial)`. -/
def Circle.serialize (c : Circle) (serial : String) : String :=
  serial ++ " circle" ++ " " ++ to_string_float c.origin.x
    ++ " " ++ to_string_float c.origin.y
    ++ " " ++ to_string_float c.radius
    ++ " " ++ to_string_int c.color.r
    ++ " " ++ to_string_int c.color.g
    ++ " " ++ to_string_int c.color.b

/-- Mirrors `Polygon::serialize(serial)`. -/
def Polygon.serialize (pg : Polygon) (serial : String) : String :=
  (pg.points.foldl (fun s point =>
      s ++ " " ++ to_string_float point.x ++ " " ++ to_string_float point.y)
    (serial ++ " polygon" ++ " " ++ to_string_int (pg.points.length : ℤ)))
    ++ " " ++ to_string_int pg.color.r
    ++ " " ++ to_string_int pg.color.g
    ++ " " ++ to_string_int pg.color.b

/-- Mirrors `Line::serialize(serial)`. -/
def Line.serialize (l : Line) (serial : String) : String :=
  serial ++ " line" ++ " " ++ to_string_float l.point.x
    ++ " " ++ to_string_float l.point.y
    ++ " " ++ to_string_float l.direction.x
    ++ " " ++ to_string_float l.direction.y
    ++ " " ++ to_string_int l.color.r
    ++ " " ++ to_string_int l.color.g
    ++ " " ++ to_string_int l.color.b

/-- Mirrors `Ellipse::serialize(serial)`. -/
def Ellipse.serialize (e : Ellipse) (serial : String) : String :=
  serial ++ " ellipse" ++ " " ++ to_string_float e.origin.x
    ++ " " ++ to_string_float e.origin.y
    ++ " " ++ to_string_float e.radius.x
    ++ " " ++ to_string_float e.radius.y
    ++ " " ++ to_string_int e.color.r
    ++ " " ++ to_string_int e.color.g
    ++ " " ++ to_string_int e.color.b

/-- Virtual `serialize` on a stored shape. -/
def Shape.serialize : Shape → String → String
  | .circle c, s => c.serialize s
  | .polygon p, s => p.serialize s
  | .line l, s => l.serialize s
  | .ellipse e, s => e.serialize s

/-- Mirrors `Image::serialize(serial)`: each component in order, then
`" annotation " + size + " " + annotation`.  `annotation.size()` is the
byte length; annotations are modelled as character strings, so it is
`String.length`. -/
def Image.serialize (img : Image) (serial : String) : String :=
  (img.components.foldl (fun s component => component.serialize s) serial)
    ++ " annotation " ++ to_string_int (img.annotation.length : ℤ)
    ++ " " ++ img.annotation

/-! Deserialization

`Image::deserialize` reads whitespace-separated tokens from an
`std::istringstream`.  The stream is modelled by its remaining
characters plus a fail flag (`failbit`; end-of-file during extraction
also raises it, and an empty remainder plays the role of `eofbit`).
`operator>>` on `std::string` follows C++ semantics: on a failed
extraction the target string keeps its previous value (the `sentry`
fails before the string is cleared), which matters because the source
reuses one `word` variable for the whole loop.  `std::stof` / `std::stoi`
are modelled by `Option`-returning parsers of the numeric prefix
(exponents, hex, inf/nan and out-of-range are outside the fragment the
codec emits and the claims exercise); a `none` corresponds to the
`std::invalid_argument` they throw. -/

/-- The whitespace characters `operator>>` skips. -/
def isWs (c : Char) : Bool := c = ' ' || c = '\n' || c = '\t' || c = '\r'

/-- The remaining-input state of the `istringstream`. -/
structure Sstream where
  rem : List Char
  fail : Bool
  deriving DecidableEq, Repr

/-- Mirrors `buf >> word`: skip whitespace, extract the maximal non-whitespace
token.  On failure (failbit already set, or nothing but whitespace
left) the previous `word` is kept and the fail flag raised. -/
def extractToken (w : String) (st : Sstream) : String × Sstream :=
  if st.fail then (w, st)
  else
    let rem' := st.rem.dropWhile isWs
    let tok := rem'.takeWhile (fun c => !(isWs c))
    if tok.isEmpty then (w, { rem := [], fail := true })
    else (String.mk tok, { rem := rem'.drop tok.length, fail := false })

/-- Mirrors `buf.getline(buffer, n)`: extract and store characters until `n - 1`
are stored (failbit set, delimiter left in the stream), a `'\n'` is met
(consumed, not stored), or the input runs out. -/
def getline (st : Sstream) (n : ℤ) : String × Sstream :=
  if st.fail then ("", st)
  else
    let limit := (n - 1).toNat
    let k := (st.rem.takeWhile (fun c => c ≠ '\n')).length
    if k < limit then
      if k < st.rem.length then
        (String.mk (st.rem.take k), { rem := st.rem.drop (k + 1), fail := false })
      else
        (String.mk st.rem, { rem := [], fail := false })
    else
      (String.mk (st.rem.take limit), { rem := st.rem.drop limit, fail := true })

/-- Digit test for the numeric parsers. -/
def isDig (c : Char) : Bool := decide ('0' ≤ c ∧ c ≤ '9')

/-- Split a character list into its maximal digit-value prefix and the
rest. -/
def digitSpan (cs : List Char) : List ℕ × List Char :=
  ((cs.takeWhile isDig).map (fun c => c.toNat - 48), cs.dropWhile isDig)

/-- Value of a big-endian digit list. -/
def natFromDigits (ds : List ℕ) : ℕ := ds.foldl (fun a d => 10 * a + d) 0

/-- Optional sign prefix of a C numeric literal. -/
def signSplit (cs : List Char) : Bool × List Char :=
  match cs with
  | [] => (false, [])
  | c :: t => if c = '-' then (true, t) else if c = '+' then (false, t) else (false, c :: t)

/-- Mirrors `std::stof` on the fragment the codec uses: optional sign, digits,
optional `'.'` and fraction digits; `none` when no digit is found
(`std::invalid_argument`). -/
def stofChars (cs : List Char) : Option ℚ :=
  let (neg, cs₁) := signSplit cs
  let (ds, cs₂) := digitSpan cs₁
  match cs₂ with
  | '.' :: cs₃ =>
    let (fs, _) := digitSpan cs₃
    if ds.isEmpty && fs.isEmpty then none
    else
      let q : ℚ := (natFromDigits ds : ℚ) + (natFromDigits fs : ℚ) / (10 : ℚ) ^ fs.length
      some (if neg then -q else q)
  | _ =>
    if ds.isEmpty then none
    else
      let q : ℚ := (natFromDigits ds : ℚ)
      some (if neg then -q else q)

/-- Mirrors `std::stof` on a token. -/
def stof (w : String) : Option ℚ := stofChars w.data

/-- Mirrors `std::stoi` on a token: optional sign then digits; `none` when no
digit is found. -/
def stoi (w : String) : Option ℤ :=
  let (neg, cs₁) := signSplit w.data
  let (ds, _) := digitSpan cs₁
  if ds.isEmpty then none
  else some (if neg then -(natFromDigits ds : ℤ) else (natFromDigits ds : ℤ))

/-- The `case Shape::CIRCLE` record body: six `buf >> word` / numeric
conversions inside one `try`; a conversion failure is caught (record
dropped), leaving `word` and the stream where the failure happened. -/
def parseCircleRec (w : String) (st : Sstream) : String × Sstream × Option Shape :=
  let (w, st) := extractToken w st
  match stof w with
  | none => (w, st, none)
  | some x =>
  let (w, st) := extractToken w st
  match stof w with
  | none => (w, st, none)
  | some y =>
  let (w, st) := extractToken w st
  match stof w with
  | none => (w, st, none)
  | some rad =>
  let (w, st) := extractToken w st
  match stoi w with
  | none => (w, st, none)
  | some r =>
  let (w, st) := extractToken w st
  match stoi w with
  | none => (w, st, none)
  | some g =>
  let (w, st) := extractToken w st
  match stoi w with
  | none => (w, st, none)
  | some b => (w, st, some (.circle ⟨⟨x, y⟩, rad, ⟨r, g, b⟩⟩))

/-- The point-reading `for` loop of the `case Shape::POLYGON` body. -/
def parsePolyPts : ℕ → String → Sstream → List Vec2 →
    String × Sstream × Option (List Vec2)
  | 0, w, st, acc => (w, st, some acc)
  | n + 1, w, st, acc =>
    let (w, st) := extractToken w st
    match stof w with
    | none => (w, st, none)
    | some x =>
    let (w, st) := extractToken w st
    match stof w with
    | none => (w, st, none)
    | some y => parsePolyPts n w st (acc ++ [⟨x, y⟩])

/-- The `case Shape::POLYGON` record body. -/
def parsePolygonRec (w : String) (st : Sstream) : String × Sstream × Option Shape :=
  let (w, st) := extractToken w st
  match stoi w with
  | none => (w, st, none)
  | some nb_pts =>
  match parsePolyPts nb_pts.toNat w st [] with
  | (w, st, none) => (w, st, none)
  | (w, st, some points) =>
  let (w, st) := extractToken w st
  match stoi w with
  | none => (w, st, none)
  | some r =>
  let (w, st) := extractToken w st
  match stoi w with
  | none => (w, st, none)
  | some g =>
  let (w, st) := extractToken w st
  match stoi w with
  | none => (w, st, none)
  | some b => (w, st, some (.polygon ⟨points, ⟨r, g, b⟩⟩))

/-- The `case Shape::LINE` record body. -/
def parseLineRec (w : String) (st : Sstream) : String × Sstream × Option Shape :=
  let (w, st) := extractToken w st
  match stof w with
  | none => (w, st, none)
  | some x =>
  let (w, st) := extractToken w st
  match stof w with
  | none => (w, st, none)
  | some y =>
  let (w, st) := extractToken w st
  match stof w with
  | none => (w, st, none)
  | some dir_x =>
  let (w, st) := extractToken w st
  match stof w with
  | none => (w, st, none)
  | some dir_y =>
  let (w, st) := extractToken w st
  match stoi w with
  | none => (w, st, none)
  | some r =>
  let (w, st) := extractToken w st
  match stoi w with
  | none => (w, st, none)
  | some g =>
  let (w, st) := extractToken w st
  match stoi w with
  | none => (w, st, none)
  | some b => (w, st, some (.line ⟨⟨x, y⟩, ⟨dir_x, dir_y⟩, ⟨r, g, b⟩⟩))

/-- The `case Shape::ELLIPSE` record body. -/
def parseEllipseRec (w : String) (st : Sstream) : String × Sstream × Option Shape :=
  let (w, st) := extractToken w st
  match stof w with
  | none => (w, st, none)
  | some x =>
  let (w, st) := extractToken w st
  match stof w with
  | none => (w, st, none)
  | some y =>
  let (w, st) := extractToken w st
  match stof w with
  | none => (w, st, none)
  | some rad_x =>
  let (w, st) := extractToken w st
  match stof w with
  | none => (w, st, none)
  | some rad_y =>
  let (w, st) := extractToken w st
  match stoi w with
  | none => (w, st, none)
  | some r =>
  let (w, st) := extractToken w st
  match stoi w with
  | none => (w, st, none)
  | some g =>
  let (w, st) := extractToken w st
  match stoi w with
  | none => (w, st, none)
  | some b => (w, st, some (.ellipse ⟨⟨x, y⟩, ⟨rad_x, rad_y⟩, ⟨r, g, b⟩⟩))

/-- The `case Shape::UNKNOWN` body (which unrecognized keywords reach,
since `END_ENUM` and `Functions::UNKNOWN` share the value 5): read the
next token, `std::stoi` it with no surrounding `try` (its exception
escapes `deserialize`, modelled by `Except.error`), then
`getline(buffer, string_size + 2)` and return the line read. -/
def parseUnknownRec (w : String) (st : Sstream) :
    Except String (String × Sstream × String) :=
  let (w, st) := extractToken w st
  match stoi w with
  | none => .error ("stoi: invalid_argument")
  | some string_size =>
    let (line, st) := getline st (string_size + 2)
    .ok (w, st, line)

/-- One record added to the image when its parse succeeded (the
`add_component` call sits inside the `try`). -/
def addParsed (img : Image) : Option Shape → Image
  | some s => img.add_component s
  | none => img

/-- The token loop of `Image::deserialize`, with fuel (each iteration
consumes at least one character, so `rem.length + 1` always suffices;
fuel exhaustion returns the image unchanged and is never reached from
`Image.deserialize`). -/
def deserLoop : ℕ → String → Sstream → Image → Except String Image
  | 0, _, _, img => .ok img
  | fuel + 1, w, st, img =>
    let (word, st') := extractToken w st
    if st'.fail then .ok img
    else
      match ShapeStringToEnum word with
      | .CIRCLE =>
        match parseCircleRec word st' with
        | (w₂, st₂, res) => deserLoop fuel w₂ st₂ (addParsed img res)
      | .POLYGON =>
        match parsePolygonRec word st' with
        | (w₂, st₂, res) => deserLoop fuel w₂ st₂ (addParsed img res)
      | .LINE =>
        match parseLineRec word st' with
        | (w₂, st₂, res) => deserLoop fuel w₂ st₂ (addParsed img res)
      | .ELLIPSE =>
        match parseEllipseRec word st' with
        | (w₂, st₂, res) => deserLoop fuel w₂ st₂ (addParsed img res)
      | .IMAGE => deserLoop fuel word st' img
      | .END_ENUM =>
        match parseUnknownRec word st' with
        | .error e => .error e
        | .ok (w₂, st₂, line) => deserLoop fuel w₂ st₂ (img.annotate line)

/-- Mirrors `Image::deserialize(s)`: clear the existing components (annotation
and origin are kept), then run the token loop.  A propagated
`Except.error` is the uncaught exception of the `UNKNOWN` case. -/
def Image.deserialize (img : Image) (s : String) : Except String Image :=
  deserLoop (s.data.length + 1) "" { rem := s.data, fail := false }
    { img with components := [] }

/-! Small unfolding lemmas for the `Vec2` arithmetic instances. -/

theorem Vec2.add_def (a b : Vec2) : a + b = ⟨a.x + b.x, a.y + b.y⟩ := rfl

theorem Vec2.sub_def (a b : Vec2) : a - b = ⟨a.x - b.x, a.y - b.y⟩ := rfl

theorem Vec2.smul_def (r : ℚ) (v : Vec2) : r * v = ⟨r * v.x, r * v.y⟩ := rfl

/-! Claim theorems -/

/-- C3.  The claim says `Line::bounding_box` returns the axis-aligned box
exactly covering the two endpoints `P` and `P + D`.  The code only fills
an axis when the second endpoint is strictly smaller there, so for the
line with `P = (0,0)`, `D = (1,1)` it returns the untouched sentinel box
`(x_min = 10000, x_max = -10000, y_min = 10000, y_max = -10000)` instead
of the box `(0, 1, 0, 1)` the claim requires: the evaluation below
exhibits the divergence. -/
theorem C3_line_bounding_box_sentinel :
    Line.bounding_box ⟨⟨0, 0⟩, ⟨1, 1⟩, ⟨0, 0, 0⟩⟩ = BoundingBox.init ∧
    BoundingBox.init =
      { x_max := -10000, x_min := 10000, y_max := -10000, y_min := 10000 } ∧
    ¬ (BoundingBox.init.x_min = 0 ∧ BoundingBox.init.x_max = 1) := by
  refine ⟨by with_unfolding_all rfl, rfl, by decide⟩

/-- C9.  On an `Image` with an empty component list, `bounding_box()` is
the sentinel box, `area()` is `(-20000) * (-20000) = 400000000` and
`perimeter()` is `2 * (-40000) = -80000`. -/
theorem C9_empty_image_metrics (ann : String) (o : Vec2) :
    Image.bounding_box ⟨[], ann, o⟩ =
      { x_max := -10000, x_min := 10000, y_max := -10000, y_min := 10000 } ∧
    Image.area ⟨[], ann, o⟩ = 400000000 ∧
    Image.perimeter ⟨[], ann, o⟩ = -80000 := by
  refine ⟨rfl, ?_, ?_⟩ <;>
    norm_num [Image.area, Image.perimeter, Image.bounding_box, BoundingBox.init]

/-- Witness for `C9_empty_image_metrics` (its binders are data, but it is
instantiated here at a concrete empty image for the record). -/
theorem C9_empty_image_metrics_witness :
    Image.area ⟨[], "", ⟨0, 0⟩⟩ = 400000000 :=
  (C9_empty_image_metrics ("") ⟨0, 0⟩).2.1

/-- C7.  `Image::add_component(s)` first translates `s` by the current
origin and then appends it at the end of the component list; with origin
`(10, 0)`, adding a circle centered at `(0, 0)` with radius 1 stores a
circle centered at `(10, 0)`. -/
theorem C7_add_component :
    (∀ (img : Image) (s : Shape),
      (img.add_component s).components
        = img.components ++ [s.translate img.origin]) ∧
    (∀ (cs : List Shape) (ann : String) (col : Color),
      ((Image.mk cs ann ⟨10, 0⟩).add_component
          (.circle ⟨⟨0, 0⟩, 1, col⟩)).components
        = cs ++ [.circle ⟨⟨10, 0⟩, 1, col⟩]) := by
  refine ⟨fun img s => rfl, fun cs ann col => ?_⟩
  with_unfolding_all rfl

/-- C8.  Every transform operation on every shape variant (translate,
both homothety overloads, both rotate overloads with their sine/cosine
inputs, centralSym, axialSym) leaves the shape's color and discriminant
type tag unchanged. -/
theorem C8_transforms_preserve_color_type (sh : Shape) (v p d : Vec2) (r s c : ℚ) :
    ((sh.translate v).color = sh.color ∧ (sh.translate v).type = sh.type) ∧
    ((sh.homothety r).color = sh.color ∧ (sh.homothety r).type = sh.type) ∧
    ((sh.homothety2 p r).color = sh.color ∧ (sh.homothety2 p r).type = sh.type) ∧
    ((sh.rotate s c).color = sh.color ∧ (sh.rotate s c).type = sh.type) ∧
    ((sh.rotate2 p s c).color = sh.color ∧ (sh.rotate2 p s c).type = sh.type) ∧
    ((sh.centralSym p).color = sh.color ∧ (sh.centralSym p).type = sh.type) ∧
    ((sh.axialSym p d).color = sh.color ∧ (sh.axialSym p d).type = sh.type) := by
  cases sh <;>
    exact ⟨⟨rfl, rfl⟩, ⟨rfl, rfl⟩, ⟨rfl, rfl⟩, ⟨rfl, rfl⟩, ⟨rfl, rfl⟩,
      ⟨rfl, rfl⟩, ⟨rfl, rfl⟩⟩

/-- C10.  `operator==` ignores color for `Polygon`, `Line` and `Ellipse`
(equal geometric data compares equal whatever the colors), while
`Circle`'s `operator==` also compares the color (distinct colors make
otherwise identical circles compare unequal). -/
theorem C10_equality_ignores_color :
    (∀ (pts : List Vec2) (c₁ c₂ : Color),
      Polygon.beq ⟨pts, c₁⟩ ⟨pts, c₂⟩ = true) ∧
    (∀ (pt dir : Vec2) (c₁ c₂ : Color),
      Line.beq ⟨pt, dir, c₁⟩ ⟨pt, dir, c₂⟩ = true) ∧
    (∀ (o rad : Vec2) (c₁ c₂ : Color),
      Ellipse.beq ⟨o, rad, c₁⟩ ⟨o, rad, c₂⟩ = true) ∧
    (∀ (o : Vec2) (rad : ℚ) (c₁ c₂ : Color), c₁ ≠ c₂ →
      Circle.beq ⟨o, rad, c₁⟩ ⟨o, rad, c₂⟩ = false) := by
  refine ⟨fun pts c₁ c₂ => ?_, fun pt dir c₁ c₂ => ?_,
    fun o rad c₁ c₂ => ?_, fun o rad c₁ c₂ h => ?_⟩
  · simp [Polygon.beq]
  · simp [Line.beq]
  · simp [Ellipse.beq]
  · simp [Circle.beq, h]

/-- Witness for `C10_equality_ignores_color`: two circles that differ
only in color compare unequal. -/
theorem C10_equality_ignores_color_witness :
    (⟨0, 0, 0⟩ : Color) ≠ (⟨1, 0, 0⟩ : Color) ∧
    Circle.beq ⟨⟨0, 0⟩, 1, ⟨0, 0, 0⟩⟩ ⟨⟨0, 0⟩, 1, ⟨1, 0, 0⟩⟩ = false :=
  ⟨by decide, C10_equality_ignores_color.2.2.2 ⟨0, 0⟩ 1 ⟨0, 0, 0⟩ ⟨1, 0, 0⟩ (by decide)⟩

/-- C4 counterexample.  The claim says `centralSym(p)` leaves every
variant in exactly the state of `homothety(p, -1)`.  For the circle
with origin `(0,0)` and radius 1 and `p = (1,0)`, `centralSym` moves the
origin to `(2,0)` and keeps radius 1, while `homothety((1,0), -1)` also
moves the origin to `(2,0)` but negates the radius to `-1`, so the two
states differ. -/
theorem C4_centralSym_ne_homothety_on_circle :
    Circle.centralSym ⟨⟨0, 0⟩, 1, ⟨0, 0, 0⟩⟩ ⟨1, 0⟩ ≠
      Circle.homothety2 ⟨⟨0, 0⟩, 1, ⟨0, 0, 0⟩⟩ ⟨1, 0⟩ (-1) := by
  intro h
  have hr := congrArg Circle.radius h
  simp [Circle.centralSym, Circle.translate, Circle.homothety2] at hr
  norm_num at hr

/-- C4 (amended).  `centralSym(p)` maps each positional point `M` to
`M + 2 (p - M)` in every variant, leaving radii and directions
unchanged; it coincides with `homothety(p, -1)` exactly for `Polygon`.
For `Circle` and `Ellipse`, `homothety(p, -1)` produces the same origin
but additionally negates the radius, and for `Line` both `homothety`
overloads are no-ops while `centralSym` still reflects the base
point. -/
theorem C4_centralSym_characterization (p : Vec2) :
    (∀ pg : Polygon, pg.centralSym p = pg.homothety2 p (-1)) ∧
    (∀ c : Circle,
      c.centralSym p = { c with origin := c.origin + (2 : ℚ) * (p - c.origin) } ∧
      (c.homothety2 p (-1)).origin = c.origin + (2 : ℚ) * (p - c.origin) ∧
      (c.homothety2 p (-1)).radius = -c.radius ∧
      (c.homothety2 p (-1)).color = c.color) ∧
    (∀ e : Ellipse,
      e.centralSym p = { e with origin := e.origin + (2 : ℚ) * (p - e.origin) } ∧
      (e.homothety2 p (-1)).origin = e.origin + (2 : ℚ) * (p - e.origin) ∧
      (e.homothety2 p (-1)).radius = (-1 : ℚ) * e.radius ∧
      (e.homothety2 p (-1)).color = e.color) ∧
    (∀ l : Line,
      l.centralSym p = { l with point := l.point + (2 : ℚ) * (p - l.point) } ∧
      l.homothety2 p (-1) = l ∧ l.homothety (-1) = l) := by
  refine ⟨fun pg => ?_, fun c => ⟨rfl, ?_, by show c.radius * (-1) = _; ring, rfl⟩,
    fun e => ⟨rfl, ?_, rfl, rfl⟩, fun l => ⟨rfl, rfl, rfl⟩⟩
  · simp only [Polygon.centralSym, Polygon.homothety2, Polygon.mk.injEq, and_true]
    refine List.map_congr_left fun pt _ => ?_
    rw [Vec2.ext_iff']
    constructor <;> (simp [Vec2.add_def, Vec2.sub_def, Vec2.smul_def]; ring)
  · show p + (-1 : ℚ) * (c.origin - p) = _
    rw [Vec2.ext_iff']
    constructor <;> (simp [Vec2.add_def, Vec2.sub_def, Vec2.smul_def]; ring)
  · show p + (-1 : ℚ) * (e.origin - p) = _
    rw [Vec2.ext_iff']
    constructor <;> (simp [Vec2.add_def, Vec2.sub_def, Vec2.smul_def]; ring)

/-- C6.  `rotate(p, θ)` followed by `rotate(p, -θ)` restores every shape
variant exactly, assuming exact sine/cosine: the rotation bodies consume
`fast_sin(angle)` and `fast_cos(angle)` (from the absent `Maths.h`), so
they are modelled by arbitrary values `s`, `c` constrained by the exact
Pythagorean identity, and the second rotation uses `(-s, c)`, i.e.
`sin(-θ) = -sin θ`, `cos(-θ) = cos θ`. -/
theorem C6_rotate2_roundtrip (sh : Shape) (p : Vec2) (s c : ℚ)
    (h : s ^ 2 + c ^ 2 = 1) :
    (sh.rotate2 p s c).rotate2 p (-s) c = sh := by
  cases sh with
  | circle ci =>
    obtain ⟨⟨ox, oy⟩, rad, col⟩ := ci
    refine congrArg Shape.circle ?_
    simp only [Circle.rotate2, Circle.mk.injEq, Vec2.mk.injEq, and_true]
    constructor
    · linear_combination (ox - p.x) * h
    · linear_combination (oy - p.y) * h
  | polygon pg =>
    obtain ⟨pts, col⟩ := pg
    refine congrArg Shape.polygon ?_
    simp only [Polygon.rotate2, Polygon.mk.injEq, and_true, List.map_map]
    conv_rhs => rw [← List.map_id pts]
    refine List.map_congr_left fun pt _ => ?_
    simp only [Function.comp, id, Vec2.mk.injEq]
    obtain ⟨px, py⟩ := pt
    simp only [Vec2.mk.injEq]
    constructor
    · linear_combination (px - p.x) * h
    · linear_combination (py - p.y) * h
  | line l =>
    obtain ⟨⟨ptx, pty⟩, ⟨dx, dy⟩, col⟩ := l
    refine congrArg Shape.line ?_
    simp only [Line.rotate2, Line.mk.injEq, Vec2.sub_def, Vec2.add_def,
      Vec2.mk.injEq, and_true]
    refine ⟨⟨?_, ?_⟩, ?_, ?_⟩
    · linear_combination (ptx - p.x) * h
    · linear_combination (pty - p.y) * h
    · linear_combination dx * h
    · linear_combination dy * h
  | ellipse e => rfl

/-- Witness for `C6_rotate2_roundtrip` at `s = 3/5`, `c = 4/5` on a
concrete circle. -/
theorem C6_rotate2_roundtrip_witness :
    ((3 : ℚ)/5) ^ 2 + ((4 : ℚ)/5) ^ 2 = 1 ∧
    (Shape.rotate2 (Shape.rotate2 (.circle ⟨⟨1, 0⟩, 2, ⟨0, 0, 0⟩⟩)
        ⟨0, 0⟩ ((3 : ℚ)/5) ((4 : ℚ)/5)) ⟨0, 0⟩ (-((3 : ℚ)/5)) ((4 : ℚ)/5))
      = .circle ⟨⟨1, 0⟩, 2, ⟨0, 0, 0⟩⟩ :=
  ⟨by norm_num,
   C6_rotate2_roundtrip (.circle ⟨⟨1, 0⟩, 2, ⟨0, 0, 0⟩⟩) ⟨0, 0⟩
     ((3 : ℚ)/5) ((4 : ℚ)/5) (by norm_num)⟩

/-! Helper lemmas about the tokenizer, the numeric printers/parsers and
the deserialization loop. -/

theorem deserLoop_fail (fuel : ℕ) (w : String) (st : Sstream) (img : Image)
    (h : st.fail = true) : deserLoop fuel w st img = .ok img := by
  cases fuel <;> simp [deserLoop, extractToken, h]

theorem natDigitsAux_eq (fuel n : ℕ) (h : n ≤ fuel) :
    natDigitsAux fuel n = Nat.digits 10 n := by
  induction fuel generalizing n with
  | zero =>
    interval_cases n
    simp [natDigitsAux]
  | succ fuel ih =>
    cases n with
    | zero => simp [natDigitsAux]
    | succ m =>
      rw [natDigitsAux, Nat.digits_def' (by norm_num) (Nat.succ_pos m), ih]
      have : (m + 1) / 10 < m + 1 := Nat.div_lt_self (Nat.succ_pos m) (by norm_num)
      omega

theorem foldl_digits_reverse (l : List ℕ) (a : ℕ) :
    List.foldl (fun a d => 10 * a + d) a l.reverse
      = a * 10 ^ l.length + Nat.ofDigits 10 l := by
  induction l generalizing a with
  | nil => simp
  | cons d t ih =>
    rw [List.reverse_cons, List.foldl_append, ih]
    simp only [List.foldl_cons, List.foldl_nil, Nat.ofDigits_cons, List.length_cons]
    ring

theorem natFromDigits_digits_reverse (n : ℕ) :
    natFromDigits ((Nat.digits 10 n).reverse) = n := by
  rw [natFromDigits, foldl_digits_reverse, Nat.ofDigits_digits]
  ring

theorem digCh_spec (d : ℕ) (hd : d < 10) :
    isDig (digCh d) = true ∧ (digCh d).toNat - 48 = d ∧ isWs (digCh d) = false ∧
    digCh d ≠ '.' ∧ digCh d ≠ '-' ∧ digCh d ≠ '+' ∧ digCh d ≠ '\n' := by
  interval_cases d <;> exact ⟨by decide, by decide, by decide, by decide,
    by decide, by decide, by decide⟩

theorem digitSpan_append (rest : List Char)
    (h2 : ∀ c, rest.head? = some c → isDig c = false) :
    ∀ ds : List Char, (∀ c ∈ ds, isDig c = true) →
      digitSpan (ds ++ rest) = (ds.map (fun c => c.toNat - 48), rest) := by
  intro ds
  induction ds with
  | nil =>
    intro _
    simp only [List.nil_append, digitSpan, List.map_nil]
    cases rest with
    | nil => rfl
    | cons r t =>
      have hr := h2 r rfl
      simp [List.takeWhile_cons, List.dropWhile_cons, hr]
  | cons c t ih =>
    intro h1
    have hc := h1 c (by simp)
    have ht := ih (fun x hx => h1 x (by simp [hx]))
    simp only [digitSpan, Prod.mk.injEq] at ht
    simp only [List.cons_append, digitSpan, List.takeWhile_cons, hc,
      List.dropWhile_cons, if_true, List.map_cons, Prod.mk.injEq]
    exact ⟨by rw [ht.1], ht.2⟩

theorem natToString_data (n : ℕ) :
    (natToString n).data
      = if n = 0 then ['0'] else ((Nat.digits 10 n).reverse.map digCh) := by
  by_cases h : n = 0
  · subst h; rfl
  · simp only [natToString, h, if_false, natDigitsAux_eq n n le_rfl]
    simp [List.map_reverse]

theorem natToString_chars (n : ℕ) :
    (natToString n).data ≠ [] ∧ ∀ c ∈ (natToString n).data, isDig c = true := by
  rw [natToString_data]
  by_cases h : n = 0
  · simp only [h, if_true]
    exact ⟨by simp, by intro c hc; simp at hc; subst hc; decide⟩
  · simp only [h, if_false]
    constructor
    · simp only [ne_eq, List.map_eq_nil_iff, List.reverse_eq_nil_iff]
      exact Nat.digits_ne_nil_iff_ne_zero.mpr h
    · intro c hc
      simp only [List.mem_map, List.mem_reverse] at hc
      obtain ⟨d, hd, rfl⟩ := hc
      exact (digCh_spec d (Nat.digits_lt_base (by norm_num) hd)).1

theorem stoi_natToString (n : ℕ) : stoi (natToString n) = some (n : ℤ) := by
  obtain ⟨hne, hdig⟩ := natToString_chars n
  obtain ⟨c, t, hds⟩ : ∃ c t, (natToString n).data = c :: t := by
    rcases h : (natToString n).data with _ | ⟨c, t⟩
    · exact absurd h hne
    · exact ⟨c, t, rfl⟩
  have hc : isDig c = true := hdig c (by rw [hds]; simp)
  have h1 : ¬ (c = Char.ofNat 45) := fun h => by
    rw [h] at hc; exact absurd hc (by decide)
  have h2 : ¬ (c = Char.ofNat 43) := fun h => by
    rw [h] at hc; exact absurd hc (by decide)
  have hsign : signSplit (natToString n).data = (false, (natToString n).data) := by
    rw [hds]
    simp only [signSplit, h1, h2, if_false]
  have hspan : digitSpan (natToString n).data
      = ((natToString n).data.map (fun ch => ch.toNat - 48), []) := by
    have := digitSpan_append [] (by intro ch h; cases h) (natToString n).data hdig
    rwa [List.append_nil] at this
  have hval : natFromDigits ((natToString n).data.map (fun ch => ch.toNat - 48)) = n := by
    rw [natToString_data]
    by_cases h : n = 0
    · subst h; simp only [if_true]; decide
    · simp only [h, if_false, List.map_map]
      have hmap : ((Nat.digits 10 n).reverse.map ((fun ch => ch.toNat - 48) ∘ digCh))
          = (Nat.digits 10 n).reverse := by
        conv_rhs => rw [← List.map_id ((Nat.digits 10 n).reverse)]
        refine List.map_congr_left fun d hd => ?_
        simp only [List.mem_reverse] at hd
        exact (digCh_spec d (Nat.digits_lt_base (by norm_num) hd)).2.1
      rw [hmap, natFromDigits_digits_reverse]
  have hempty : ((natToString n).data.map (fun ch => ch.toNat - 48)).isEmpty = false := by
    rw [hds]; rfl
  simp only [stoi, hsign, hspan, hempty, Bool.false_eq_true, if_false, hval]

theorem stoi_to_string_int_nat (n : ℕ) : stoi (to_string_int (n : ℤ)) = some (n : ℤ) := by
  have h : ¬ ((n : ℤ) < 0) := by omega
  rw [to_string_int]
  simp only [h, if_false, Int.natAbs_ofNat]
  have he : ("" ++ natToString n) = natToString n := by simp
  rw [he, stoi_natToString]

theorem to_string_int_nat_chars (n : ℕ) :
    (to_string_int (n : ℤ)).data ≠ [] ∧
    ∀ c ∈ (to_string_int (n : ℤ)).data, isDig c = true := by
  have h : ¬ ((n : ℤ) < 0) := by omega
  rw [to_string_int]
  simp only [h, if_false, Int.natAbs_ofNat]
  have he : ("" ++ natToString n) = natToString n := by simp
  rw [he]
  exact natToString_chars n

theorem isDig_not_ws (c : Char) (h : isDig c = true) :
    isWs c = false ∧ c ≠ '\n' := by
  constructor
  · by_contra hw
    simp only [Bool.not_eq_false] at hw
    simp only [isWs, Bool.or_eq_true, decide_eq_true_eq] at hw
    rcases hw with ((rfl | rfl) | rfl) | rfl <;> revert h <;> decide
  · rintro rfl; revert h; decide

theorem takeWhile_nonWs_append (tok rest : List Char)
    (h3 : ∀ c, rest.head? = some c → isWs c = true) :
    ∀ _hyp : ∀ c ∈ tok, isWs c = false,
    (tok ++ rest).takeWhile (fun c => !(isWs c)) = tok := by
  induction tok with
  | nil =>
    intro _
    simp only [List.nil_append]
    cases rest with
    | nil => rfl
    | cons r t => simp [List.takeWhile_cons, h3 r rfl]
  | cons c t ih =>
    intro h2
    have hc := h2 c (by simp)
    simp [List.takeWhile_cons, hc, ih (fun x hx => h2 x (by simp [hx]))]

theorem extractToken_str (w kw : String) (rest : List Char)
    (h1 : kw.data ≠ [])
    (h2 : ∀ c ∈ kw.data, isWs c = false)
    (h3 : ∀ c, rest.head? = some c → isWs c = true) :
    extractToken w ⟨' ' :: (kw.data ++ rest), false⟩ = (kw, ⟨rest, false⟩) := by
  have hdrop : (' ' :: (kw.data ++ rest)).dropWhile isWs = kw.data ++ rest := by
    rw [List.dropWhile_cons]
    simp only [show isWs ' ' = true from rfl, if_true]
    rcases hds : kw.data with _ | ⟨c, t⟩
    · exact absurd hds h1
    · have hc : isWs c = false := h2 c (by rw [hds]; simp)
      simp [List.dropWhile_cons, hc]
  have htake := takeWhile_nonWs_append kw.data rest h3 h2
  have hne : kw.data.isEmpty = false := by
    rcases hds : kw.data with _ | ⟨c, t⟩
    · exact absurd hds h1
    · rfl
  simp only [extractToken, Bool.false_eq_true, if_false, hdrop, htake, hne,
    List.drop_left, Prod.mk.injEq]

theorem getline_exact (l : List Char) (hnl : ∀ ch ∈ l, ch ≠ '\n') (m : ℤ)
    (hm : (m - 1).toNat = l.length) :
    getline ⟨l, false⟩ m = (String.mk l, ⟨[], true⟩) := by
  have hk : (l.takeWhile (fun c => c ≠ '\n')).length = l.length := by
    rw [List.takeWhile_eq_self_iff.mpr]
    intro x hx
    simp only [ne_eq, decide_eq_true_eq]
    exact hnl x hx
  simp only [getline, Bool.false_eq_true, if_false, hm, hk, lt_self_iff_false,
    List.take_length, List.drop_length]

/-- C5 counterexample.  The claim says a leading unknown token is
silently ignored, with no component added and no other state change.
Deserializing the stream `foo 1 a` into a fresh image leaves no
component but sets the annotation to `" a"`, so the image state does
change: the unknown keyword is routed to the annotation branch, not
dropped silently. -/
theorem C5_unknown_token_changes_state :
    Image.fresh.deserialize ("foo 1 a") = .ok ⟨[], " a", ⟨0, 0⟩⟩ ∧
    Image.fresh.annotation = "" ∧ (" a" : String) ≠ "" := by
  refine ⟨by with_unfolding_all rfl, rfl, by decide⟩

/-- C5 (amended).  A leading token that is not one of the four shape
keywords reaches the `UNKNOWN` arm (shared with `END_ENUM`): the token
is dropped and treated as the start of an annotation record.  The next
token is consumed and parsed with `std::stoi` outside any `try` block;
when it parses as `n` the following `getline(buffer, n + 2)` stores the
next `n + 1` characters, including the separating space, as the image's
annotation (on a stream holding exactly a size-`n` newline-free tail
this also raises `failbit`, ending the loop with no component added);
when it is not numeric the `std::invalid_argument` escapes
`deserialize` uncaught. -/
theorem C5_unknown_keyword_annotation_branch :
    (∀ (kw : String) (n : ℕ) (txt : String) (img : Image) (w₀ : String),
      kw.data ≠ [] →
      (∀ ch ∈ kw.data, isWs ch = false) →
      ShapeStringToEnum kw = .END_ENUM →
      (∀ ch ∈ txt.data, ch ≠ '\n') →
      txt.length = n →
      deserLoop ((" " ++ kw ++ " " ++ to_string_int (n : ℤ) ++ " " ++ txt).length + 1)
          w₀ ⟨(" " ++ kw ++ " " ++ to_string_int (n : ℤ) ++ " " ++ txt).data, false⟩ img
        = .ok { img with annotation := " " ++ txt }) ∧
    (∀ (kw bad : String) (img : Image) (w₀ : String) (fuel : ℕ),
      kw.data ≠ [] →
      (∀ ch ∈ kw.data, isWs ch = false) →
      ShapeStringToEnum kw = .END_ENUM →
      bad.data ≠ [] →
      (∀ ch ∈ bad.data, isWs ch = false) →
      stoi bad = none →
      deserLoop (fuel + 1) w₀ ⟨(" " ++ kw ++ " " ++ bad).data, false⟩ img
        = .error ("stoi: invalid_argument")) := by
  constructor
  · intro kw n txt img w₀ h1 h2 henum hnl hlen
    have hdata : (" " ++ kw ++ " " ++ to_string_int (n : ℤ) ++ " " ++ txt).data
        = ' ' :: (kw.data ++ (' ' :: ((to_string_int (n : ℤ)).data ++ (' ' :: txt.data)))) := by
      simp [String.data_append]
    have e1 : extractToken w₀
        ⟨' ' :: (kw.data ++ (' ' :: ((to_string_int (n : ℤ)).data ++ (' ' :: txt.data)))), false⟩
        = (kw, ⟨' ' :: ((to_string_int (n : ℤ)).data ++ (' ' :: txt.data)), false⟩) :=
      extractToken_str w₀ kw _ h1 h2 (by intro c hc; simp at hc; subst hc; rfl)
    have e2 : extractToken kw
        ⟨' ' :: ((to_string_int (n : ℤ)).data ++ (' ' :: txt.data)), false⟩
        = (to_string_int (n : ℤ), ⟨' ' :: txt.data, false⟩) :=
      extractToken_str kw (to_string_int (n : ℤ)) _ (to_string_int_nat_chars n).1
        (fun c hc => (isDig_not_ws c ((to_string_int_nat_chars n).2 c hc)).1)
        (by intro c hc; simp at hc; subst hc; rfl)
    have e4 : getline ⟨' ' :: txt.data, false⟩ ((n : ℤ) + 2)
        = (String.mk (' ' :: txt.data), ⟨[], true⟩) := by
      refine getline_exact _ ?_ _ ?_
      · intro ch hch
        rcases List.mem_cons.mp hch with rfl | h
        · decide
        · exact hnl ch h
      · have : txt.data.length = n := hlen
        simp only [List.length_cons, this]
        omega
    rw [hdata]
    simp only [deserLoop, e1, Bool.false_eq_true, if_false, henum,
      parseUnknownRec, e2, stoi_to_string_int_nat, e4, deserLoop_fail]
    rfl
  · intro kw bad img w₀ fuel h1 h2 henum hb1 hb2 hbad
    have hdata : (" " ++ kw ++ " " ++ bad).data
        = ' ' :: (kw.data ++ (' ' :: bad.data)) := by
      simp [String.data_append]
    have e1 : extractToken w₀ ⟨' ' :: (kw.data ++ (' ' :: bad.data)), false⟩
        = (kw, ⟨' ' :: bad.data, false⟩) :=
      extractToken_str w₀ kw _ h1 h2 (by intro c hc; simp at hc; subst hc; rfl)
    have e2 : extractToken kw ⟨' ' :: (bad.data ++ []), false⟩
        = (bad, ⟨[], false⟩) :=
      extractToken_str kw bad [] hb1 hb2 (by intro c hc; cases hc)
    rw [List.append_nil] at e2
    rw [hdata]
    simp only [deserLoop, e1, Bool.false_eq_true, if_false, henum,
      parseUnknownRec, e2, hbad]

/-- Witness for `C5_unknown_keyword_annotation_branch`: the stream
`" foo 1 a"` on a fresh image stores annotation `" a"`, and the stream
`" foo circle"` raises the uncaught exception. -/
theorem C5_unknown_keyword_annotation_branch_witness :
    ("foo" : String).data ≠ [] ∧
    ShapeStringToEnum ("foo") = .END_ENUM ∧
    ("a" : String).length = 1 ∧
    deserLoop ((" " ++ "foo" ++ " " ++ to_string_int ((1 : ℕ) : ℤ) ++ " " ++ "a").length + 1)
        ("") ⟨(" " ++ "foo" ++ " " ++ to_string_int ((1 : ℕ) : ℤ) ++ " " ++ "a").data, false⟩
        Image.fresh
      = .ok { Image.fresh with annotation := " " ++ "a" } ∧
    deserLoop (5 + 1) ("") ⟨(" " ++ "foo" ++ " " ++ "circle").data, false⟩ Image.fresh
      = .error ("stoi: invalid_argument") :=
  ⟨by decide, by decide, by decide,
   C5_unknown_keyword_annotation_branch.1 ("foo") 1 ("a") Image.fresh ("")
     (by decide) (by decide) (by decide) (by decide) (by decide),
   C5_unknown_keyword_annotation_branch.2 ("foo") ("circle") Image.fresh ("") 5
     (by decide) (by decide) (by decide) (by decide) (by decide) (by decide)⟩

/-- C1.  The claim says serializing a composite holding mixed shapes and
an annotation, then deserializing into a fresh image, restores the same
component list and the same annotation string.  For the mixed image
below (all parameters exactly representable with two decimals, so the
codec is lossless on them), the component list does round-trip, but the
deserialized annotation is `" hi"`, not `"hi"`: the annotation branch
reads `string_size + 1` characters starting at the separating space, so
every round-trip prepends one space to the annotation. -/
theorem C1_roundtrip_prepends_space_to_annotation :
    Image.serialize
        ⟨[.circle ⟨⟨1, 2⟩, 3, ⟨255, 0, 0⟩⟩,
          .polygon ⟨[⟨0, 0⟩, ⟨1, 0⟩, ⟨0, 1⟩], ⟨1, 2, 3⟩⟩,
          .line ⟨⟨-1, -2⟩, ⟨3, 4⟩, ⟨9, 8, 7⟩⟩,
          .ellipse ⟨⟨0, 5⟩, ⟨2, 3⟩, ⟨0, 0, 0⟩⟩], "hi", ⟨0, 0⟩⟩ ("")
      = " circle 1.00 2.00 3.00 255 0 0 polygon 3 0.00 0.00 1.00 0.00 0.00 1.00 1 2 3 line -1.00 -2.00 3.00 4.00 9 8 7 ellipse 0.00 5.00 2.00 3.00 0 0 0 annotation 2 hi" ∧
    Image.fresh.deserialize (Image.serialize
        ⟨[.circle ⟨⟨1, 2⟩, 3, ⟨255, 0, 0⟩⟩,
          .polygon ⟨[⟨0, 0⟩, ⟨1, 0⟩, ⟨0, 1⟩], ⟨1, 2, 3⟩⟩,
          .line ⟨⟨-1, -2⟩, ⟨3, 4⟩, ⟨9, 8, 7⟩⟩,
          .ellipse ⟨⟨0, 5⟩, ⟨2, 3⟩, ⟨0, 0, 0⟩⟩], "hi", ⟨0, 0⟩⟩ (""))
      = .ok ⟨[.circle ⟨⟨1, 2⟩, 3, ⟨255, 0, 0⟩⟩,
              .polygon ⟨[⟨0, 0⟩, ⟨1, 0⟩, ⟨0, 1⟩], ⟨1, 2, 3⟩⟩,
              .line ⟨⟨-1, -2⟩, ⟨3, 4⟩, ⟨9, 8, 7⟩⟩,
              .ellipse ⟨⟨0, 5⟩, ⟨2, 3⟩, ⟨0, 0, 0⟩⟩], " hi", ⟨0, 0⟩⟩ ∧
    (" hi" : String) ≠ "hi" := by
  refine ⟨by with_unfolding_all rfl, by with_unfolding_all rfl, by decide⟩

/-- C2.  The claim says a malformed numeric token only skips its own
record, never propagates an exception, and leaves every other
well-formed record parsed.  After the malformed `circle foo` record is
caught and skipped, the loop reads the leftover token as a shape
keyword: it lands in the annotation branch, whose `std::stoi` has no
surrounding `try`.  On the first stream below the leftover `x` makes
`stoi` throw out of `deserialize` (the uncaught exception), and the
well-formed second circle — which parses fine on its own, third
conjunct — is lost; on the second stream the leftover `0 5 255 0 0`
tokens are swallowed as a bogus annotation with `failbit`, again losing
the well-formed second circle (no component parsed at all). -/
theorem C2_malformed_record_not_recovered :
    Image.fresh.deserialize ("circle foo x circle 2.00 3.00 4.00 255 0 0")
      = .error ("stoi: invalid_argument") ∧
    Image.fresh.deserialize ("circle foo 0 5 255 0 0 circle 2.00 3.00 4.00 255 0 0")
      = .ok ⟨[], " 255 0", ⟨0, 0⟩⟩ ∧
    Image.fresh.deserialize ("circle 2.00 3.00 4.00 255 0 0")
      = .ok ⟨[.circle ⟨⟨2, 3⟩, 4, ⟨255, 0, 0⟩⟩], "", ⟨0, 0⟩⟩ := by
  refine ⟨by with_unfolding_all rfl, by with_unfolding_all rfl,
    by with_unfolding_all rfl⟩

end Patchwork
